import Mathlib

/-!
Shallow embedding of the `ipl_data_api` stream proxy.

The repository holds two near-duplicate request handlers:

* `src/worker.js` — an edge-worker `fetch` handler (pass-through variant);
* `src/server.js` — an Express route `GET /stream_proxy` (standalone variant).

Each handler reads the inbound request's `url` and (worker only) `ref`
query parameters and its `Range` header, builds one outbound GET request,
and relays or reports the result.  The embedding below models the JS
values the handlers manipulate (nullable strings, truthiness, the WHATWG
URL parser, the `fetch` call) and then translates each handler line by
line.  The network is a parameter `env : FetchEnv` mapping the outbound
request to either an upstream response or a thrown exception; an uncaught
exception escaping a handler is an `Except.error`.
-/

/-- A JavaScript string-or-null value (`searchParams.get`, `headers.get`
and `req.query.url` all yield `string | null`/`undefined`). -/
abbrev JSStr := Option String

/-- JS truthiness of a string-or-null value: `null`/`undefined` and the
empty string are falsy, every other string is truthy. -/
def jsTruthy : JSStr → Bool
  | none => false
  | some s => s != ""

/-- JS string coercion of a string-or-null value, as performed by
`new URL(x)` when `x` is `null`: `String(null) = "null"`. -/
def jsToString : JSStr → String
  | none => "null"
  | some s => s

/-- A parsed URL as far as the proxy observes it: scheme, host (with
port, if any) and the remainder.  Only `origin` is ever read. -/
structure JSURL where
  scheme : String
  host : String
  rest : String
deriving DecidableEq, Repr

/-- `URL.origin`: `scheme://host`. -/
def JSURL.origin (u : JSURL) : String := u.scheme ++ "://" ++ u.host

/-- Whether `pat` occurs at the head of `cs`. -/
def startsWithSeq : List Char → List Char → Bool
  | [], _ => true
  | _ :: _, [] => false
  | p :: ps, c :: cs => p == c && startsWithSeq ps cs

/-- Split a character list at the first occurrence of `pat`, yielding
the part before it and the part after it; `none` when `pat` (assumed
nonempty) does not occur. -/
def breakSeq (pat : List Char) : List Char → Option (List Char × List Char)
  | [] => none
  | c :: cs =>
    if startsWithSeq pat (c :: cs) then some ([], (c :: cs).drop pat.length)
    else
      match breakSeq pat cs with
      | none => none
      | some (pre, post) => some (c :: pre, post)

/-- Model of the WHATWG URL parser restricted to what the proxy needs: a
string parses when it has the shape `scheme://host[rest]` with a nonempty
alphabetic scheme and a nonempty host; anything else (in particular the
strings `"null"` and `""` arising from coercing an absent parameter) is
rejected, as `new URL` would throw a `TypeError` on it. -/
def parseURL (s : String) : Option JSURL :=
  match breakSeq [':', '/', '/'] s.data with
  | none => none
  | some (sch, tail) =>
    if sch ≠ [] && sch.all Char.isAlpha then
      let host := tail.takeWhile (· ≠ '/')
      if host ≠ [] then
        some ⟨String.mk sch, String.mk host, String.mk (tail.drop host.length)⟩
      else none
    else none

/-- The message of the `TypeError` thrown by `new URL` (and by `fetch`)
on a string that does not parse as a URL. -/
def urlParseError (s : String) : String := "Invalid URL: " ++ s

/-- The single outbound GET request a handler issues: target URL and the
four headers the handlers set.  `range = none` means the `Range` header
is omitted; `range = some r` means it is sent with value `r`. -/
structure OutboundRequest where
  url : String
  userAgent : String
  referer : String
  origin : String
  range : Option String
deriving DecidableEq, Repr

/-- An upstream HTTP response: status, header list, and the body stream
(modelled as the string of bytes it delivers). -/
structure UpstreamResponse where
  status : Nat
  headers : List (String × String)
  body : String
deriving DecidableEq, Repr

/-- Outcome of the outbound `fetch` call: either an upstream response or
a thrown exception carrying a message. -/
inductive FetchResult where
  | success (resp : UpstreamResponse)
  | jsThrow (msg : String)
deriving DecidableEq, Repr

/-- The network environment: what the world answers to each outbound
request the proxy could issue. -/
def FetchEnv := OutboundRequest → FetchResult

/-- The outbound `fetch(target, { headers })` call: `fetch` first parses
its URL argument and throws a `TypeError` on a malformed one; otherwise
the environment decides the outcome. -/
def doFetch (env : FetchEnv) (r : OutboundRequest) : FetchResult :=
  match parseURL r.url with
  | none => .jsThrow (urlParseError r.url)
  | some _ => env r

/-- ASCII lowercasing of a header name. -/
def lowerStr (s : String) : String := String.mk (s.data.map Char.toLower)

/-- Case-insensitive header lookup, as `Headers.get` performs it. -/
def headerGet (hs : List (String × String)) (name : String) : Option String :=
  (hs.find? (fun p => lowerStr p.1 == lowerStr name)).map (·.2)

/-- Inbound request as seen by the worker handler: the two query
parameters and the one header it reads, plus `extra`, standing for every
other part of the request (method, path, remaining headers…), which the
handler never touches. -/
structure WorkerRequest where
  urlParam : JSStr
  refParam : JSStr
  rangeHeader : JSStr
  extra : String
deriving DecidableEq, Repr

/-- The response a handler produces: status, the headers it explicitly
sets, and the body.  Runtime-added default headers are not modelled. -/
structure ProxyResponse where
  status : Nat
  headers : List (String × String)
  body : String
deriving DecidableEq, Repr

/-- `src/worker.js` line 14: the fixed spoofed user agent. -/
def workerUA : String := "Mozilla/5.0 (compatible; StreamProxy/1.0)"

/-- `src/worker.js` line 5:
`const ref = url.searchParams.get("ref") || new URL(target).origin + "/";`
The right operand of `||` is evaluated — and may throw, outside any
`try` — whenever the `ref` parameter is absent or empty. -/
def workerRef (req : WorkerRequest) : Except String String :=
  if jsTruthy req.refParam then .ok (req.refParam.getD "")
  else
    match parseURL (jsToString req.urlParam) with
    | none => .error (urlParseError (jsToString req.urlParam))
    | some u => .ok (u.origin ++ "/")

/-- `src/worker.js` lines 12–18: the argument of the outbound `fetch`
call, given the resolved referrer `ref` and its parse `refURL`. -/
def workerOutboundCore (req : WorkerRequest) (ref : String) (refURL : JSURL) :
    OutboundRequest :=
  { url := jsToString req.urlParam
    userAgent := workerUA
    referer := ref
    origin := refURL.origin
    range := some (req.rangeHeader.getD "") }

/-- The worker handler, `src/worker.js` lines 2–28.  `Except.error m`
models an uncaught exception with message `m` escaping the handler. -/
def workerFetch (env : FetchEnv) (req : WorkerRequest) :
    Except String ProxyResponse :=
  match workerRef req with
  | .error m => .error m
  | .ok ref =>
    if jsTruthy req.urlParam then
      match parseURL ref with
      | none => .ok ⟨500, [], "Proxy error: " ++ urlParseError ref⟩
      | some refURL =>
        match doFetch env (workerOutboundCore req ref refURL) with
        | .success resp => .ok ⟨resp.status, resp.headers, resp.body⟩
        | .jsThrow m => .ok ⟨500, [], "Proxy error: " ++ m⟩
    else
      .ok ⟨400, [], "Missing ?url="⟩

/-- The outbound request the worker handler passes to `fetch`, or `none`
when control never reaches the `fetch` call. -/
def workerOutbound (req : WorkerRequest) : Option OutboundRequest :=
  match workerRef req with
  | .error _ => none
  | .ok ref =>
    if jsTruthy req.urlParam then
      match parseURL ref with
      | none => none
      | some refURL => some (workerOutboundCore req ref refURL)
    else none

/-- Inbound request as seen by the Express handler: the `url` query
parameter, the inbound `Range` header (which this handler never reads),
and `extra` for everything else it never touches. -/
structure ServerRequest where
  urlParam : JSStr
  rangeHeader : JSStr
  extra : String
deriving DecidableEq, Repr

/-- `src/server.js` line 13: the fixed spoofed user agent. -/
def serverUA : String := "Mozilla/5.0"

/-- `src/server.js` lines 14–15: the fixed Referer and Origin value. -/
def serverReferer : String := "https://fancode.com/"

/-- The outbound request the Express handler passes to `fetch`
(`src/server.js` lines 11–17), or `none` when the 400 branch fires
before the call.  No `Range` header is set. -/
def serverOutbound (req : ServerRequest) : Option OutboundRequest :=
  if jsTruthy req.urlParam then
    some { url := jsToString req.urlParam
           userAgent := serverUA
           referer := serverReferer
           origin := serverReferer
           range := none }
  else none

/-- The Express handler, `src/server.js` lines 6–24.  Express leaves the
status at its default 200 unless `res.status` is called; `res.set` with a
`null` value stringifies it to `"null"`. -/
def serverHandler (env : FetchEnv) (req : ServerRequest) : ProxyResponse :=
  match serverOutbound req with
  | none => ⟨400, [], "Missing url param"⟩
  | some out =>
    match doFetch env out with
    | .success resp =>
        ⟨200, [("Content-Type", jsToString (headerGet resp.headers "content-type"))],
         resp.body⟩
    | .jsThrow m => ⟨500, [], "Proxy error: " ++ m⟩

/-- A default environment used to instantiate closed statements: every
outbound request fails with a DNS-style error. -/
def defaultEnv : FetchEnv :=
  fun r => .jsThrow ("getaddrinfo ENOTFOUND " ++ r.url)

/-- Whether `p` is a prefix of `s`, via `startsWithSeq`. -/
def strStartsWith (p s : String) : Bool := startsWithSeq p.data s.data

/-! ## Helper lemmas -/

/-- A character sequence starts with itself followed by anything. -/
theorem startsWithSeq_append (p rest : List Char) :
    startsWithSeq p (p ++ rest) = true := by
  induction p with
  | nil => rfl
  | cons c cs ih => simp [startsWithSeq, ih]

/-- A string starts with itself followed by anything. -/
theorem strStartsWith_append (p rest : String) :
    strStartsWith p (p ++ rest) = true := by
  unfold strStartsWith
  rw [String.data_append]
  exact startsWithSeq_append _ _

/-- Appending `"/"` never yields the empty string. -/
theorem append_slash_ne_empty (s : String) : s ++ "/" ≠ "" := by
  cases s with
  | mk data =>
    intro h
    have h2 : data ++ ['/'] = ([] : List Char) := congrArg String.data h
    simp at h2

/-- When the worker handler reaches its `fetch` call with outbound
request `out`, its result is determined by the outcome of that call. -/
theorem workerFetch_outbound (env : FetchEnv) (req : WorkerRequest)
    (out : OutboundRequest) (h : workerOutbound req = some out) :
    workerFetch env req =
      match doFetch env out with
      | .success resp => .ok ⟨resp.status, resp.headers, resp.body⟩
      | .jsThrow m => .ok ⟨500, [], "Proxy error: " ++ m⟩ := by
  unfold workerOutbound at h
  unfold workerFetch
  cases hr : workerRef req with
  | error m => simp [hr] at h
  | ok ref =>
    simp only [hr] at h ⊢
    cases htr : jsTruthy req.urlParam with
    | false => simp [htr] at h
    | true =>
      simp only [htr, if_true] at h ⊢
      cases hp : parseURL ref with
      | none => simp [hp] at h
      | some refURL =>
        simp only [hp, Option.some.injEq] at h ⊢
        rw [h]

/-- Characterisation of the worker's outbound request: it is issued
exactly when the target is truthy, the referrer resolves, and the
resolved referrer parses as a URL. -/
theorem workerOutbound_some (req : WorkerRequest) (ref : String)
    (refURL : JSURL) (hr : workerRef req = .ok ref)
    (ht : jsTruthy req.urlParam = true) (hp : parseURL ref = some refURL) :
    workerOutbound req = some (workerOutboundCore req ref refURL) := by
  unfold workerOutbound
  simp [hr, ht, hp]

/-- Inversion: an issued worker outbound request is `workerOutboundCore`
at a resolved referrer that parses, on a truthy target. -/
theorem workerOutbound_shape (req : WorkerRequest) (out : OutboundRequest)
    (h : workerOutbound req = some out) :
    ∃ ref refURL, workerRef req = .ok ref ∧ jsTruthy req.urlParam = true ∧
      parseURL ref = some refURL ∧ out = workerOutboundCore req ref refURL := by
  unfold workerOutbound at h
  cases hr : workerRef req with
  | error m => simp [hr] at h
  | ok ref =>
    simp only [hr] at h
    cases htr : jsTruthy req.urlParam with
    | false => simp [htr] at h
    | true =>
      simp only [htr, if_true] at h
      cases hp : parseURL ref with
      | none => simp [hp] at h
      | some refURL =>
        simp only [hp, Option.some.injEq] at h
        exact ⟨ref, refURL, rfl, rfl, hp, h.symm⟩

/-- Inversion: an issued server outbound request is the fixed record on
a truthy target. -/
theorem serverOutbound_shape (req : ServerRequest) (out : OutboundRequest)
    (h : serverOutbound req = some out) :
    jsTruthy req.urlParam = true ∧
      out = ⟨jsToString req.urlParam, serverUA, serverReferer, serverReferer, none⟩ := by
  unfold serverOutbound at h
  cases htr : jsTruthy req.urlParam with
  | false => simp [htr] at h
  | true =>
    simp only [htr, if_true, Option.some.injEq] at h
    exact ⟨rfl, h.symm⟩

/-- When the resolved referrer is `.error`, the exception escapes the
worker handler uncaught. -/
theorem workerFetch_error (env : FetchEnv) (req : WorkerRequest) (m : String)
    (h : workerRef req = .error m) : workerFetch env req = .error m := by
  unfold workerFetch
  rw [h]

/-- On a falsy target and falsy `ref` parameter, line 5's referrer
derivation throws the URL-parse `TypeError`. -/
theorem workerRef_error_of_falsy (req : WorkerRequest)
    (hurl : jsTruthy req.urlParam = false) (href : jsTruthy req.refParam = false) :
    workerRef req = .error (urlParseError (jsToString req.urlParam)) := by
  unfold workerRef
  rw [href]
  have hnone : parseURL (jsToString req.urlParam) = none := by
    cases hu : req.urlParam with
    | none => rfl
    | some s =>
      have hs : s = "" := by
        rw [hu] at hurl
        simpa [jsTruthy] using hurl
      subst hs
      rfl
  simp [hnone]

/-! ## Claim theorems -/

/-- C1: on a request whose `url` query parameter is absent, the
standalone server returns status 400 with body "Missing url param" as
the claim states; the edge worker, however, when no `ref` parameter
accompanies the missing `url`, lets the `TypeError` thrown by
`new URL(null)` on line 5 escape uncaught instead of returning the
claimed 400 "Missing ?url=" response. -/
theorem c1_missing_url_eval (env : FetchEnv) :
    (∀ rng ex, serverHandler env ⟨none, rng, ex⟩ = ⟨400, [], "Missing url param"⟩) ∧
    workerFetch env ⟨none, none, none, ""⟩ = .error (urlParseError "null") := by
  exact ⟨fun rng ex => rfl, rfl⟩

/-- C2: pass-through variant — whenever the worker handler issues
outbound request `out` and the upstream answers with response `resp`,
the handler's response has `resp`'s status, carries `resp`'s headers,
and its body is `resp`'s body unmodified, for every status value. -/
theorem c2_worker_passthrough (env : FetchEnv) (req : WorkerRequest)
    (out : OutboundRequest) (resp : UpstreamResponse)
    (hout : workerOutbound req = some out)
    (hfetch : doFetch env out = .success resp) :
    workerFetch env req = .ok ⟨resp.status, resp.headers, resp.body⟩ := by
  rw [workerFetch_outbound env req out hout, hfetch]

def c2Req : WorkerRequest := ⟨some "http://example.com/v.mp4", none, some "bytes=0-", ""⟩

def c2Resp : UpstreamResponse := ⟨206, [("content-type", "video/mp4")], "DATA"⟩

def c2Env : FetchEnv := fun _ => .success c2Resp

def c2Out : OutboundRequest :=
  ⟨"http://example.com/v.mp4", workerUA, "http://example.com/",
   "http://example.com", some "bytes=0-"⟩

/-- Witness for C2 at a concrete request and a concrete 206 upstream. -/
theorem c2_worker_passthrough_witness :
    workerFetch c2Env c2Req = .ok ⟨206, [("content-type", "video/mp4")], "DATA"⟩ :=
  c2_worker_passthrough c2Env c2Req c2Out c2Resp (by decide) (by decide)

/-- C3: in both variants, whenever the outbound `fetch` call throws an
exception with message `m`, the handler returns status 500 with body
exactly `"Proxy error: " ++ m`. -/
theorem c3_fetch_throw_500 (env : FetchEnv) (m : String) :
    (∀ (req : WorkerRequest) (out : OutboundRequest),
        workerOutbound req = some out → doFetch env out = .jsThrow m →
        workerFetch env req = .ok ⟨500, [], "Proxy error: " ++ m⟩) ∧
    (∀ (req : ServerRequest) (out : OutboundRequest),
        serverOutbound req = some out → doFetch env out = .jsThrow m →
        serverHandler env req = ⟨500, [], "Proxy error: " ++ m⟩) := by
  refine ⟨fun req out hout hf => ?_, fun req out hout hf => ?_⟩
  · rw [workerFetch_outbound env req out hout, hf]
  · unfold serverHandler
    simp only [hout, hf]

def c3ReqW : WorkerRequest := ⟨some "http://example.com/v.mp4", none, none, ""⟩

def c3OutW : OutboundRequest :=
  ⟨"http://example.com/v.mp4", workerUA, "http://example.com/",
   "http://example.com", some ""⟩

def c3ReqS : ServerRequest := ⟨some "http://example.com/v.mp4", none, ""⟩

def c3OutS : OutboundRequest :=
  ⟨"http://example.com/v.mp4", serverUA, serverReferer, serverReferer, none⟩

/-- Witness for C3: both handlers, under an environment whose `fetch`
throws a DNS error, answer 500 with body "Proxy error: " followed by
exactly the thrown message. -/
theorem c3_fetch_throw_500_witness :
    workerFetch defaultEnv c3ReqW =
      .ok ⟨500, [], "Proxy error: getaddrinfo ENOTFOUND http://example.com/v.mp4"⟩ ∧
    serverHandler defaultEnv c3ReqS =
      ⟨500, [], "Proxy error: getaddrinfo ENOTFOUND http://example.com/v.mp4"⟩ :=
  ⟨(c3_fetch_throw_500 defaultEnv "getaddrinfo ENOTFOUND http://example.com/v.mp4").1
      c3ReqW c3OutW (by decide) (by decide),
   (c3_fetch_throw_500 defaultEnv "getaddrinfo ENOTFOUND http://example.com/v.mp4").2
      c3ReqS c3OutS (by decide) (by decide)⟩

/-- C4 counterexample: in the edge-worker variant, a request with the
malformed target "not a url" and no `ref` parameter makes line 5's
`new URL(target)` throw outside the try/catch, so the handler propagates
an uncaught exception instead of returning the 500 "Proxy error: ..."
response the claim promises. -/
theorem c4_counterexample :
    workerFetch defaultEnv ⟨some "not a url", none, none, ""⟩ =
      .error (urlParseError "not a url") := by
  rfl

/-- C4 (amended): a malformed target yields the 500 "Proxy error: ..."
response in the standalone server variant always, and in the edge-worker
variant only when a non-empty `ref` parameter is supplied; with a falsy
`ref` parameter the worker's URL-parse exception escapes uncaught. -/
theorem c4_malformed_target (env : FetchEnv) :
    (∀ req : ServerRequest, jsTruthy req.urlParam = true →
        parseURL (jsToString req.urlParam) = none →
        serverHandler env req =
          ⟨500, [], "Proxy error: " ++ urlParseError (jsToString req.urlParam)⟩) ∧
    (∀ req : WorkerRequest, jsTruthy req.urlParam = true →
        jsTruthy req.refParam = true →
        parseURL (jsToString req.urlParam) = none →
        ∃ r, workerFetch env req = .ok r ∧ r.status = 500 ∧
          strStartsWith "Proxy error: " r.body = true) ∧
    (∀ req : WorkerRequest, jsTruthy req.urlParam = true →
        jsTruthy req.refParam = false →
        parseURL (jsToString req.urlParam) = none →
        workerFetch env req = .error (urlParseError (jsToString req.urlParam))) := by
  refine ⟨fun req ht hp => ?_, fun req ht href hp => ?_, fun req ht href hp => ?_⟩
  · unfold serverHandler serverOutbound
    simp only [ht, if_true]
    unfold doFetch
    simp only [hp]
  · have hr : workerRef req = .ok (req.refParam.getD "") := by
      unfold workerRef
      simp [href]
    unfold workerFetch
    rw [hr]
    simp only [ht, if_true]
    cases hpr : parseURL (req.refParam.getD "") with
    | none =>
      exact ⟨_, rfl, rfl, strStartsWith_append _ _⟩
    | some refURL =>
      unfold doFetch workerOutboundCore
      simp only [hp]
      exact ⟨_, rfl, rfl, strStartsWith_append _ _⟩
  · exact workerFetch_error env req _ (by
      unfold workerRef
      rw [href]
      simp [hp])

def c4ReqS : ServerRequest := ⟨some "not a url", none, ""⟩

def c4ReqW1 : WorkerRequest := ⟨some "not a url", some "https://x.example/", none, ""⟩

def c4ReqW2 : WorkerRequest := ⟨some "not a url", some "", none, ""⟩

/-- Witness for C4 (amended) at concrete malformed targets. -/
theorem c4_malformed_target_witness :
    serverHandler defaultEnv c4ReqS =
      ⟨500, [], "Proxy error: Invalid URL: not a url"⟩ ∧
    (∃ r, workerFetch defaultEnv c4ReqW1 = .ok r ∧ r.status = 500 ∧
        strStartsWith "Proxy error: " r.body = true) ∧
    workerFetch defaultEnv c4ReqW2 = .error (urlParseError "not a url") :=
  ⟨(c4_malformed_target defaultEnv).1 c4ReqS (by rfl) (by rfl),
   (c4_malformed_target defaultEnv).2.1 c4ReqW1 (by rfl) (by rfl) (by rfl),
   (c4_malformed_target defaultEnv).2.2 c4ReqW2 (by rfl) (by rfl) (by rfl)⟩

def c5Req : ServerRequest := ⟨some "http://example.com/a.ts", some "bytes=0-99", ""⟩

def c5Out : OutboundRequest :=
  ⟨"http://example.com/a.ts", serverUA, serverReferer, serverReferer, none⟩

/-- C5 counterexample: the standalone server, given an inbound Range
header "bytes=0-99", issues its outbound request with no Range header at
all — neither the verbatim value nor an empty string. -/
theorem c5_counterexample :
    serverOutbound c5Req = some c5Out ∧ c5Out.range ≠ some "bytes=0-99" ∧
      c5Out.range ≠ some "" := by
  exact ⟨rfl, by decide, by decide⟩

/-- C5 (amended): the edge-worker variant forwards an inbound Range
header verbatim and sends an empty-string Range header when the inbound
one is absent; the standalone server variant sends no Range header
upstream at all. -/
theorem c5_range_forwarding :
    (∀ (req : WorkerRequest) (out : OutboundRequest) (r : String),
        workerOutbound req = some out → req.rangeHeader = some r →
        out.range = some r) ∧
    (∀ (req : WorkerRequest) (out : OutboundRequest),
        workerOutbound req = some out → req.rangeHeader = none →
        out.range = some "") ∧
    (∀ (req : ServerRequest) (out : OutboundRequest),
        serverOutbound req = some out → out.range = none) := by
  refine ⟨fun req out r hout hr => ?_, fun req out hout hr => ?_,
    fun req out hout => ?_⟩
  · obtain ⟨ref, refURL, _, _, _, hcore⟩ := workerOutbound_shape req out hout
    rw [hcore]
    unfold workerOutboundCore
    rw [hr]
    rfl
  · obtain ⟨ref, refURL, _, _, _, hcore⟩ := workerOutbound_shape req out hout
    rw [hcore]
    unfold workerOutboundCore
    rw [hr]
    rfl
  · obtain ⟨_, hcore⟩ := serverOutbound_shape req out hout
    rw [hcore]

def c5ReqW1 : WorkerRequest :=
  ⟨some "http://example.com/a.ts", none, some "bytes=0-99", ""⟩

def c5OutW1 : OutboundRequest :=
  ⟨"http://example.com/a.ts", workerUA, "http://example.com/",
   "http://example.com", some "bytes=0-99"⟩

def c5ReqW2 : WorkerRequest := ⟨some "http://example.com/a.ts", none, none, ""⟩

def c5OutW2 : OutboundRequest :=
  ⟨"http://example.com/a.ts", workerUA, "http://example.com/",
   "http://example.com", some ""⟩

/-- Witness for C5 (amended) at concrete requests. -/
theorem c5_range_forwarding_witness :
    c5OutW1.range = some "bytes=0-99" ∧ c5OutW2.range = some "" ∧
      c5Out.range = none :=
  ⟨c5_range_forwarding.1 c5ReqW1 c5OutW1 "bytes=0-99" (by rfl) (by rfl),
   c5_range_forwarding.2.1 c5ReqW2 c5OutW2 (by rfl) (by rfl),
   c5_range_forwarding.2.2 c5Req c5Out (by rfl)⟩

def c6Req : ServerRequest := ⟨some "http://example.org/clip.mp4", none, ""⟩

def c6Out : OutboundRequest :=
  ⟨"http://example.org/clip.mp4", serverUA, serverReferer, serverReferer, none⟩

def c6TargetURL : JSURL := ⟨"http", "example.org", "/clip.mp4"⟩

/-- C6 counterexample: the standalone server, asked to proxy a target on
`http://example.org` with no referrer override, still sends the fixed
Referer "https://fancode.com/", not one derived from the target's
origin. -/
theorem c6_counterexample :
    parseURL "http://example.org/clip.mp4" = some c6TargetURL ∧
    serverOutbound c6Req = some c6Out ∧
    c6Out.referer ≠ c6TargetURL.origin ++ "/" ∧
    c6Out.referer = serverReferer :=
  ⟨rfl, rfl, by decide, rfl⟩

/-- C6 (amended): only the edge-worker variant derives the outbound
Referer from the target's origin (as `origin ++ "/"`) when no non-empty
`ref` parameter is supplied; the standalone server variant always sends
the fixed Referer "https://fancode.com/", whatever the target. -/
theorem c6_referer_derivation :
    (∀ (req : WorkerRequest) (out : OutboundRequest),
        jsTruthy req.refParam = false → workerOutbound req = some out →
        ∃ u, parseURL (jsToString req.urlParam) = some u ∧
          out.referer = u.origin ++ "/") ∧
    (∀ (req : ServerRequest) (out : OutboundRequest),
        serverOutbound req = some out → out.referer = serverReferer) := by
  constructor
  · intro req out href hout
    obtain ⟨ref, refURL, hr, ht, hp, hcore⟩ := workerOutbound_shape req out hout
    unfold workerRef at hr
    rw [href] at hr
    simp only [Bool.false_eq_true, if_false] at hr
    cases hu : parseURL (jsToString req.urlParam) with
    | none => rw [hu] at hr; simp at hr
    | some u =>
      rw [hu] at hr
      simp only [Except.ok.injEq] at hr
      refine ⟨u, rfl, ?_⟩
      rw [hcore]
      exact hr.symm
  · intro req out hout
    obtain ⟨_, hcore⟩ := serverOutbound_shape req out hout
    rw [hcore]

def c6ReqW : WorkerRequest := ⟨some "http://example.org/clip.mp4", none, none, ""⟩

def c6OutW : OutboundRequest :=
  ⟨"http://example.org/clip.mp4", workerUA, "http://example.org/",
   "http://example.org", some ""⟩

/-- Witness for C6 (amended) at concrete requests. -/
theorem c6_referer_derivation_witness :
    (∃ u, parseURL (jsToString c6ReqW.urlParam) = some u ∧
        c6OutW.referer = u.origin ++ "/") ∧
    c6Out.referer = serverReferer :=
  ⟨c6_referer_derivation.1 c6ReqW c6OutW (by rfl) (by rfl),
   c6_referer_derivation.2 c6Req c6Out (by rfl)⟩

/-- C7: in both variants, every issued outbound request carries the
variant's fixed spoofed User-Agent string (which is non-empty) and a
non-empty Referer header. -/
theorem c7_outbound_headers :
    (∀ (req : WorkerRequest) (out : OutboundRequest),
        workerOutbound req = some out →
        out.userAgent = workerUA ∧ out.userAgent ≠ "" ∧ out.referer ≠ "") ∧
    (∀ (req : ServerRequest) (out : OutboundRequest),
        serverOutbound req = some out →
        out.userAgent = serverUA ∧ out.userAgent ≠ "" ∧ out.referer ≠ "") := by
  constructor
  · intro req out hout
    obtain ⟨ref, refURL, hr, ht, hp, hcore⟩ := workerOutbound_shape req out hout
    have hrne : ref ≠ "" := by
      unfold workerRef at hr
      cases htr : jsTruthy req.refParam with
      | true =>
        rw [htr] at hr
        simp only [if_true] at hr
        cases hf : req.refParam with
        | none => rw [hf] at htr; simp [jsTruthy] at htr
        | some s =>
          rw [hf] at htr hr
          simp only [Except.ok.injEq] at hr
          have hs : s ≠ "" := by simpa [jsTruthy] using htr
          rw [← hr]
          simpa using hs
      | false =>
        rw [htr] at hr
        simp only [Bool.false_eq_true, if_false] at hr
        cases hu : parseURL (jsToString req.urlParam) with
        | none => rw [hu] at hr; simp at hr
        | some u =>
          rw [hu] at hr
          simp only [Except.ok.injEq] at hr
          rw [← hr]
          exact append_slash_ne_empty _
    subst hcore
    exact ⟨rfl, show workerUA ≠ "" by decide, hrne⟩
  · intro req out hout
    obtain ⟨_, hcore⟩ := serverOutbound_shape req out hout
    subst hcore
    exact ⟨rfl, show serverUA ≠ "" by decide, show serverReferer ≠ "" by decide⟩

/-- Witness for C7 at concrete requests in both variants. -/
theorem c7_outbound_headers_witness :
    (c5OutW1.userAgent = workerUA ∧ c5OutW1.userAgent ≠ "" ∧
        c5OutW1.referer ≠ "") ∧
    (c6Out.userAgent = serverUA ∧ c6Out.userAgent ≠ "" ∧ c6Out.referer ≠ "") :=
  ⟨c7_outbound_headers.1 c5ReqW1 c5OutW1 (by rfl),
   c7_outbound_headers.2 c6Req c6Out (by rfl)⟩

/-- C8: in the edge-worker variant the referrer expression on line 5 is
evaluated before the missing-target check: with a falsy target, a truthy
`ref` parameter leads to the 400 "Missing ?url=" response, while a falsy
`ref` parameter makes `new URL` throw on the coerced target outside the
try/catch, so the exception escapes the handler uncaught. -/
theorem c8_ref_before_check (env : FetchEnv) (req : WorkerRequest)
    (hurl : jsTruthy req.urlParam = false) :
    (jsTruthy req.refParam = true →
        workerFetch env req = .ok ⟨400, [], "Missing ?url="⟩) ∧
    (jsTruthy req.refParam = false →
        workerFetch env req = .error (urlParseError (jsToString req.urlParam))) := by
  constructor
  · intro href
    have hr : workerRef req = .ok (req.refParam.getD "") := by
      unfold workerRef
      simp [href]
    unfold workerFetch
    rw [hr]
    simp [hurl]
  · intro href
    exact workerFetch_error env req _ (workerRef_error_of_falsy req hurl href)

def c8Req1 : WorkerRequest := ⟨none, some "https://fancode.com/", none, ""⟩

def c8Req2 : WorkerRequest := ⟨none, none, none, ""⟩

/-- Witness for C8: with the `url` parameter absent, a non-empty `ref`
yields the 400 response and an absent `ref` yields an uncaught
exception. -/
theorem c8_ref_before_check_witness :
    workerFetch defaultEnv c8Req1 = .ok ⟨400, [], "Missing ?url="⟩ ∧
    workerFetch defaultEnv c8Req2 = .error (urlParseError "null") :=
  ⟨(c8_ref_before_check defaultEnv c8Req1 (by rfl)).1 (by rfl),
   (c8_ref_before_check defaultEnv c8Req2 (by rfl)).2 (by rfl)⟩

/-- C9: on every successful outbound fetch, the standalone server sends
the client status 200 — whatever the upstream status was — and the only
header it copies from the upstream response is Content-Type. -/
theorem c9_server_success_response (env : FetchEnv) (req : ServerRequest)
    (out : OutboundRequest) (resp : UpstreamResponse)
    (hout : serverOutbound req = some out)
    (hfetch : doFetch env out = .success resp) :
    serverHandler env req =
      ⟨200, [("Content-Type", jsToString (headerGet resp.headers "content-type"))],
       resp.body⟩ := by
  unfold serverHandler
  simp only [hout, hfetch]

def c9Resp : UpstreamResponse := ⟨404, [("Content-Type", "text/html")], "not found"⟩

def c9Env : FetchEnv := fun _ => .success c9Resp

def c9Req : ServerRequest := ⟨some "http://example.com/missing.ts", none, ""⟩

def c9Out : OutboundRequest :=
  ⟨"http://example.com/missing.ts", serverUA, serverReferer, serverReferer, none⟩

/-- Witness for C9: a 404 upstream still comes back to the client as
status 200 with only Content-Type copied. -/
theorem c9_server_success_response_witness :
    serverHandler c9Env c9Req =
      ⟨200, [("Content-Type", "text/html")], "not found"⟩ :=
  c9_server_success_response c9Env c9Req c9Out c9Resp (by rfl) (by rfl)

/-- C10: in both variants the outbound request is a deterministic
function of the inbound request's `url` and `ref` query parameters and
`Range` header — two inbound requests agreeing on those (whatever else
differs) produce the same outbound target URL and the same User-Agent,
Referer, Origin and Range header values. -/
theorem c10_outbound_deterministic :
    (∀ r₁ r₂ : WorkerRequest, r₁.urlParam = r₂.urlParam →
        r₁.refParam = r₂.refParam → r₁.rangeHeader = r₂.rangeHeader →
        workerOutbound r₁ = workerOutbound r₂) ∧
    (∀ r₁ r₂ : ServerRequest, r₁.urlParam = r₂.urlParam →
        r₁.rangeHeader = r₂.rangeHeader →
        serverOutbound r₁ = serverOutbound r₂) := by
  constructor
  · intro r₁ r₂ h1 h2 h3
    cases r₁ with
    | mk u1 f1 g1 e1 =>
      cases r₂ with
      | mk u2 f2 g2 e2 =>
        have h1' : u1 = u2 := h1
        have h2' : f1 = f2 := h2
        have h3' : g1 = g2 := h3
        subst h1'
        subst h2'
        subst h3'
        rfl
  · intro r₁ r₂ h1 h2
    cases r₁ with
    | mk u1 g1 e1 =>
      cases r₂ with
      | mk u2 g2 e2 =>
        have h1' : u1 = u2 := h1
        subst h1'
        rfl

/-- Witness for C10: two inbound requests differing only in data the
handlers never read produce identical outbound requests. -/
theorem c10_outbound_deterministic_witness :
    workerOutbound ⟨some "http://example.com/v.mp4", none, some "bytes=0-", "A"⟩ =
      workerOutbound ⟨some "http://example.com/v.mp4", none, some "bytes=0-", "B"⟩ ∧
    serverOutbound ⟨some "http://example.com/v.mp4", none, "A"⟩ =
      serverOutbound ⟨some "http://example.com/v.mp4", none, "B"⟩ :=
  ⟨c10_outbound_deterministic.1 _ _ rfl rfl rfl,
   c10_outbound_deterministic.2 _ _ rfl rfl⟩
